import Mathlib

/-!
Verification development for the payment-gateway / e-commerce detector
repository (FastAPI service around a Playwright-driven scanner).

The embedding below models the pure core of the three source files:

- app.py      : the 30-technology signature table TECH_PATTERNS, the
                scan loop of detect_technologies (pattern scan over the
                combined page content plus the runtime-global elif chain,
                final list(set(...)) dedup), the retry loop with its
                constant 2-second sleep, the fanout slice
                checkout_urls[:2], the checkout-URL discovery of
                detect_technologies_with_checkout with its browser-based
                link-analysis fallback (whose acquisition calls sit
                outside the try block and so can raise uncaught, which
                FastAPI turns into a generic 500), the single
                asyncio.gather batch, and the gatecheck URL
                normalization/validation.
- detectors.py: detect_technologies_from_text (parameterized by the
                registry, since its "patterns" module is not in the
                repository snapshot).
- main.py     : its 6-entry TECH_PATTERNS, the runtime-global path that
                appends key.replace("has", ""), and the scan_url /
                gatecheck error absorption.

Modelling conventions: every compiled regex in the source is a literal
string matched case-insensitively, except "iframe.+?captcha", which gets
its own constructor with Python re semantics (the dot does not match a
newline; laziness is irrelevant for match existence).  Case folding is
ASCII, which covers every pattern in the tables.  Python's
list(set(xs)) returns the distinct elements of xs in an unspecified
order; pyDedup below is one concrete realization (last occurrence kept),
and every theorem stated about it is order-insensitive or forced by
cardinality.  The control-character stripping done by hardened urllib
versions is not modelled; all concrete inputs used here are plain ASCII
URLs on which every urllib version agrees.
-/

/-- ASCII lowering of a character list, matching re.IGNORECASE on the
ASCII-only patterns of the signature tables. -/
def lowerChars (l : List Char) : List Char := l.map Char.toLower

/-- Does the needle occur at the very start of the haystack? -/
def headMatch : List Char → List Char → Bool
  | [], _ => true
  | _ :: _, [] => false
  | a :: as, b :: bs => a == b && headMatch as bs

/-- Does the needle occur anywhere in the haystack (re.search for a
literal pattern)? -/
def subSearch (needle : List Char) : List Char → Bool
  | [] => headMatch needle []
  | c :: rest => headMatch needle (c :: rest) || subSearch needle rest

/-- After "iframe", the regex "iframe.+?captcha" needs at least one
non-newline character and then the literal "captcha".  This scans for
that continuation: consume one non-newline character, then either
"captcha" starts immediately or keep consuming. -/
def capAfterGap : List Char → Bool
  | [] => false
  | c :: rest => !(c == '\n') && (headMatch "captcha".data rest || capAfterGap rest)

/-- Python re.search semantics of the one genuine regex in the table,
re.compile(r"iframe.+?captcha", re.IGNORECASE), on lowered text. -/
def iframeCaptchaSearch : List Char → Bool
  | [] => false
  | c :: rest =>
    (headMatch "iframe".data (c :: rest) && capAfterGap (List.drop 6 (c :: rest)))
      || iframeCaptchaSearch rest

/-- One content-matching rule of a signature.  lit s stands for
re.compile(escaped-s, re.IGNORECASE): every pattern in the source other
than "iframe.+?captcha" is such a literal once regex escapes are
removed. -/
inductive MatchRule where
  | lit (pattern : String)
  | iframeCaptchaRule
deriving DecidableEq, Repr

/-- pattern.search(text) for a rule, as a Bool. -/
def ruleSearch (r : MatchRule) (haystack : String) : Bool :=
  match r with
  | .lit p => subSearch (lowerChars p.data) (lowerChars haystack.data)
  | .iframeCaptchaRule => iframeCaptchaSearch (lowerChars haystack.data)

/-- The regex source text of a rule as detectors.py would report it via
pat.pattern (escaping dropped for the literal case). -/
def rulePatternStr : MatchRule → String
  | .lit s => s
  | .iframeCaptchaRule => "iframe.+?captcha"

/-- Where a detection came from: the text scan over the combined page
content, or a runtime-global probe. -/
inductive EvidenceKind where
  | html
  | runtimeGlobal
deriving DecidableEq, Repr

/-- One match produced by the app.py scan loop: the technology name, the
evidence kind, and the rule that fired (none for a runtime-global hit,
which appends no entry to matched_patterns). -/
structure MatchRec where
  tech : String
  kind : EvidenceKind
  rule : Option MatchRule
deriving DecidableEq, Repr

/-- Model of Python list(set(xs)): the distinct elements of xs.  Python
leaves the order unspecified; this realization keeps the last occurrence
of each element. -/
def pyDedup {α : Type} [DecidableEq α] : List α → List α
  | [] => []
  | x :: xs =>
    let r := pyDedup xs
    if x ∈ r then r else x :: r

theorem pyDedup_nodup {α : Type} [DecidableEq α] : ∀ l : List α, (pyDedup l).Nodup
  | [] => List.nodup_nil
  | x :: xs => by
    simp only [pyDedup]
    split
    · exact pyDedup_nodup xs
    · exact List.nodup_cons.mpr ⟨by assumption, pyDedup_nodup xs⟩

theorem pyDedup_mem {α : Type} [DecidableEq α] (a : α) :
    ∀ l : List α, a ∈ pyDedup l ↔ a ∈ l := by
  intro l
  induction l with
  | nil => simp [pyDedup]
  | cons x xs ih =>
    simp only [pyDedup]
    split
    · rename_i hmem
      simp only [List.mem_cons]
      constructor
      · intro h; exact Or.inr (ih.mp h)
      · rintro (rfl | h)
        · exact hmem
        · exact ih.mpr h
    · simp only [List.mem_cons, ih]

/-! ## The app.py signature table (TECH_PATTERNS, lines 29-396)

Transcribed rule for rule in source order; regex escapes removed since
the patterns are literals (see MatchRule).  The Stripe entry is split
out so the registry is definitionally a cons, which the C1 proof
exploits. -/

/-- The first Stripe rule, re.compile(r"js\.stripe\.com", re.IGNORECASE)
(app.py line 31). -/
def stripeHtmlRule : MatchRule := .lit "js.stripe.com"

/-- Stripe's remaining rules (app.py lines 33-55). -/
def stripeTailRules : List MatchRule :=
  [.lit "data-stripe", .lit "Stripe(", .lit "stripe.js",
   .lit "stripe.min.js", .lit "client_secret", .lit "payment_intent",
   .lit "stripe-payment-element", .lit "stripe-elements", .lit "stripe-checkout",
   .lit "stripe__input", .lit "stripe-card-element", .lit "stripe-v3ds",
   .lit "confirmCardPayment", .lit "createPaymentMethod", .lit "stripePublicKey",
   .lit "stripe.handleCardAction", .lit "elements.create",
   .lit "js.stripe.com/v3/hcaptcha-invisible", .lit "stripe.createToken",
   .lit "stripe-payment-request", .lit "stripe__frame", .lit "stripe-checkout.js",
   .lit "stripe-payment", .lit "stripe-redirect"]

/-- Stripe's rule list (app.py lines 30-56). -/
def stripeRules : List MatchRule := stripeHtmlRule :: stripeTailRules

/-- All entries of app.py TECH_PATTERNS after Stripe, in source order. -/
def otherEntries : List (String × List MatchRule) :=
  [("PayPal",
    [.lit "paypalobjects.com", .lit "paypal.Buttons", .lit "data-paypal",
     .lit "paypal.js", .lit "paypal-sdk.js", .lit "paypal-smart-button",
     .lit "paypal-button", .lit "paypal-checkout-sdk", .lit "paypal-hosted-fields",
     .lit "paypal-transaction-id", .lit "paypal.me", .lit "paypal-checkout",
     .lit "data-paypal-client-id", .lit "paypal.Order.create",
     .lit "paypal-checkout-component", .lit "paypal-funding"]),
   ("Razorpay",
    [.lit "checkout.razorpay.com", .lit "Razorpay(", .lit "data-razorpay",
     .lit "razorpay.js", .lit "razorpay-checkout", .lit "razorpay-payment-api",
     .lit "razorpay-sdk", .lit "razorpay-payment-button", .lit "razorpay-order-id",
     .lit "razorpay.min.js", .lit "payment_box payment_method_razorpay",
     .lit "cdn.razorpay.com", .lit "rzp_payment_icon.svg", .lit "razorpay.checkout",
     .lit "data-razorpay-key", .lit "razorpay_payment_id", .lit "razorpay-hosted"]),
   ("Braintree",
    [.lit "braintreepayments.com", .lit "Braintree.", .lit "js.braintreegateway.com",
     .lit "client_token", .lit "braintree.js", .lit "braintree-hosted-fields",
     .lit "braintree-dropin", .lit "braintree-v3", .lit "braintree-client",
     .lit "braintree-data-collector", .lit "braintree-payment-form",
     .lit "braintree-3ds-verify", .lit "client.create", .lit "braintree.min.js",
     .lit "data-braintree", .lit "braintree.tokenize", .lit "braintree-dropin-ui"]),
   ("Adyen",
    [.lit "checkoutshopper-live.adyen.com", .lit "adyen.js", .lit "data-adyen",
     .lit "adyen-checkout", .lit "adyen-payment", .lit "adyen-components",
     .lit "adyen-encrypted-data", .lit "adyen-cse", .lit "adyen-dropin",
     .lit "adyen-web-checkout", .lit "adyen.encrypt",
     .lit "checkoutshopper-test.adyen.com", .lit "adyen-checkout__component",
     .lit "adyen-payment-method", .lit "adyen-action", .lit "adyen.min.js"]),
   ("Authorize.Net",
    [.lit "js.authorize.net", .lit "data-authorize", .lit "authorize-payment",
     .lit "anet.js", .lit "accept.authorize.net", .lit "authorize-hosted-form",
     .lit "merchantAuthentication", .lit "data-api-login-id", .lit "data-client-key",
     .lit "Accept.dispatchData"]),
   ("Square",
    [.lit "squareup.com", .lit "js.squarecdn.com", .lit "square.js",
     .lit "data-square", .lit "square-payment-form", .lit "square-checkout-sdk",
     .lit "square.min.js", .lit "square-payment-flow", .lit "square.card",
     .lit "data-square-application-id", .lit "square.createPayment"]),
   ("Klarna",
    [.lit "klarna.com", .lit "js.klarna.com", .lit "klarna.js", .lit "data-klarna",
     .lit "klarna-checkout", .lit "klarna-onsite-messaging", .lit "klarna-payments",
     .lit "klarna.min.js", .lit "klarna-order-id", .lit "klarna-checkout-container",
     .lit "klarna-load"]),
   ("Checkout.com",
    [.lit "js.checkout.com", .lit "data-checkout", .lit "checkout-sdk",
     .lit "checkout-payment", .lit "cko.js", .lit "checkout.frames.js",
     .lit "cko-payment-token", .lit "checkout.init", .lit "cko-hosted",
     .lit "cko-card-token"]),
   ("Paytm",
    [.lit "paytm.js", .lit "data-paytm", .lit "paytm-checkout",
     .lit "paytm-payment-sdk", .lit "paytm-wallet", .lit "paytm.allinonesdk",
     .lit "paytm.min.js", .lit "paytm-transaction-id", .lit "paytm.invoke",
     .lit "paytm-checkout-js", .lit "data-paytm-order-id"]),
   ("Shopify Payments",
    [.lit "data-shopify-payments", .lit "shopify-checkout-sdk",
     .lit "shopify-payment-api", .lit "shopify-sdk", .lit "shopify-express-checkout",
     .lit "shopify_payments.js", .lit "shopify-payment-token", .lit "shopify.card",
     .lit "shopify-checkout-api", .lit "data-shopify-checkout"]),
   ("Worldpay",
    [.lit "worldpay.js", .lit "data-worldpay", .lit "worldpay-checkout",
     .lit "worldpay-payment-sdk", .lit "worldpay-secure", .lit "worldpay.min.js",
     .lit "worldpay.token", .lit "worldpay-payment-form", .lit "worldpay-3ds",
     .lit "data-worldpay-token"]),
   ("2Checkout",
    [.lit "2co.js", .lit "data-2checkout", .lit "2checkout-payment",
     .lit "2co-checkout", .lit "data-2co-seller-id", .lit "2checkout.convertplus",
     .lit "2checkout.token"]),
   ("Amazon Pay",
    [.lit "amazonpay.js", .lit "data-amazon-pay", .lit "amazon-pay-button",
     .lit "amazon-pay-checkout-sdk", .lit "amazon-pay-wallet",
     .lit "amazon-checkout.js", .lit "amazon-pay-token", .lit "amazon-pay-sdk",
     .lit "data-amazon-pay-merchant-id", .lit "amazon-pay-signin",
     .lit "amazon-pay-checkout-session"]),
   ("Apple Pay",
    [.lit "apple-pay.js", .lit "data-apple-pay", .lit "apple-pay-button",
     .lit "apple-pay-checkout-sdk", .lit "apple-pay-session",
     .lit "apple-pay-payment-request", .lit "ApplePaySession",
     .lit "apple-pay-merchant-id", .lit "apple-pay-payment", .lit "apple-pay-sdk",
     .lit "data-apple-pay-token", .lit "apple-pay-checkout", .lit "apple-pay-domain"]),
   ("Google Pay",
    [.lit "googlepay.js", .lit "data-google-pay", .lit "google-pay-button",
     .lit "google-pay-checkout-sdk", .lit "google-pay-tokenization",
     .lit "google-pay-token", .lit "google-pay-payment-method",
     .lit "data-google-pay-merchant-id", .lit "google-pay-checkout",
     .lit "google-pay-sdk"]),
   ("Mollie",
    [.lit "mollie.js", .lit "data-mollie", .lit "mollie-checkout",
     .lit "mollie-payment-sdk", .lit "mollie-components", .lit "mollie.min.js",
     .lit "mollie-payment-token", .lit "mollie-create-payment",
     .lit "data-mollie-profile-id", .lit "mollie-checkout-form",
     .lit "mollie-redirect"]),
   ("Opayo",
    [.lit "opayo.js", .lit "data-opayo", .lit "opoayo-checkout",
     .lit "opayo-payment-sdk", .lit "opayo-form", .lit "opayo.min.js",
     .lit "opayo-payment-token", .lit "opayo-3ds", .lit "data-opayo-merchant-id",
     .lit "opayo-hosted"]),
   ("Paddle",
    [.lit "paddle_button.js", .lit "paddle.js", .lit "data-paddle",
     .lit "paddle-checkout-sdk", .lit "paddle-product-id", .lit "paddle.min.js",
     .lit "paddle-checkout", .lit "data-paddle-vendor-id", .lit "paddle.Checkout.open",
     .lit "paddle-transaction-id", .lit "paddle-hosted"]),
   ("Shopify", [.lit "shopify.com", .lit "data-shopify", .lit "Shopify."]),
   ("WooCommerce",
    [.lit "woocommerce", .lit "wp-content/plugins/woocommerce", .lit "wc-ajax"]),
   ("Cloudflare", [.lit "cloudflare.com", .lit "cf-ray", .lit "__cf_chl"]),
   ("reCaptcha",
    [.lit "g-recaptcha", .lit "recaptcha/api.js", .lit "data-sitekey",
     .lit "nocaptcha", .lit "recaptcha.net", .lit "www.google.com/recaptcha",
     .lit "grecaptcha.execute", .lit "grecaptcha.render", .lit "grecaptcha.ready",
     .lit "recaptcha-token"]),
   ("hCaptcha",
    [.lit "hcaptcha", .lit "assets.hcaptcha.com", .lit "hcaptcha.com/1/api.js",
     .lit "data-hcaptcha-sitekey", .lit "hcaptcha-invisible", .lit "hcaptcha.execute"]),
   ("Turnstile",
    [.lit "turnstile", .lit "challenges.cloudflare.com", .lit "cf-turnstile-response",
     .lit "data-sitekey", .lit "__cf_chl_", .lit "cf_clearance"]),
   ("Arkose Labs",
    [.lit "arkose-labs", .lit "funcaptcha", .lit "client-api.arkoselabs.com",
     .lit "fc-token", .lit "fc-widget", .lit "arkose", .lit "press and hold",
     .lit "funcaptcha.com"]),
   ("GeeTest",
    [.lit "geetest", .lit "gt_captcha_obj", .lit "gt.js", .lit "geetest_challenge",
     .lit "geetest_validate", .lit "geetest_seccode"]),
   ("BotDetect",
    [.lit "botdetectcaptcha", .lit "BotDetect", .lit "BDC_CaptchaImage",
     .lit "CaptchaCodeTextBox"]),
   ("KeyCAPTCHA",
    [.lit "keycaptcha", .lit "kc_submit", .lit "kc__widget", .lit "s_kc_cid"]),
   ("Anti Bot Detection",
    [.lit "fingerprintjs", .lit "js.challenge", .lit "checking your browser",
     .lit "verify you are human", .lit "please enable javascript and cookies",
     .lit "sec-ch-ua-platform"]),
   ("Captcha",
    [.lit "captcha-container", .lit "captcha-box", .lit "captcha-frame",
     .lit "captcha_input", .lit "id=\"captcha\"", .lit "class=\"captcha\"",
     .iframeCaptchaRule, .lit "data-captcha-sitekey"])]

/-- app.py TECH_PATTERNS: the full registry in dict insertion order. -/
def TECH_PATTERNS_app : List (String × List MatchRule) :=
  ("Stripe", stripeRules) :: otherEntries

/-! ## app.py detect_technologies scan core (lines 586-638)

The loop walks TECH_PATTERNS in order; for each technology it appends
the name once per matching pattern (recording the pattern in
matched_patterns), then the if/elif chain appends the name once more
when the technology's runtime-global probe is true.  Line 637 finishes
with technologies = list(set(technologies)). -/

/-- The runtime-global key consulted for a technology by the if/elif
chain of app.py lines 594-633 (none for the technologies that have no
branch there). -/
def globalKeyFor (tech : String) : Option String :=
  if tech = "Stripe" then some "hasStripe"
  else if tech = "PayPal" then some "hasPayPal"
  else if tech = "Razorpay" then some "hasRazorpay"
  else if tech = "Braintree" then some "hasBraintree"
  else if tech = "Adyen" then some "hasAdyen"
  else if tech = "Authorize.Net" then some "hasAuthorizeNet"
  else if tech = "Square" then some "hasSquare"
  else if tech = "Klarna" then some "hasKlarna"
  else if tech = "Checkout.com" then some "hasCheckoutCom"
  else if tech = "Paytm" then some "hasPaytm"
  else if tech = "Shopify Payments" then some "hasShopifyPayments"
  else if tech = "Worldpay" then some "hasWorldpay"
  else if tech = "2Checkout" then some "has2Checkout"
  else if tech = "Amazon Pay" then some "hasAmazonPay"
  else if tech = "Apple Pay" then some "hasApplePay"
  else if tech = "Google Pay" then some "hasGooglePay"
  else if tech = "Mollie" then some "hasMollie"
  else if tech = "Opayo" then some "hasOpayo"
  else if tech = "Paddle" then some "hasPaddle"
  else if tech = "Shopify" then some "hasShopify"
  else none

/-- The matches one registry entry contributes: one record per matching
pattern (in pattern order), then one runtime-global record when the
entry's probe is true.  content is all_content of app.py line 581 (html
+ script sources + inline scripts + data attributes); g is the
js_globals map of line 551. -/
def entryMatches (content : String) (g : String → Bool) (e : String × List MatchRule) :
    List MatchRec :=
  (e.2.filter (fun r => ruleSearch r content)).map (fun r => ⟨e.1, .html, some r⟩)
    ++ (match globalKeyFor e.1 with
        | some k => if g k then [⟨e.1, .runtimeGlobal, none⟩] else []
        | none => [])

/-- All match records of one scan, in the order the loop of app.py
lines 589-633 appends to technologies. -/
def techMatches (content : String) (g : String → Bool) : List MatchRec :=
  TECH_PATTERNS_app.flatMap (entryMatches content g)

/-- The technologies field of app.py detect_technologies after line
637's list(set(...)). -/
def appTechnologies (content : String) (g : String → Bool) : List String :=
  pyDedup ((techMatches content g).map MatchRec.tech)

/-! ## detectors.py detect_technologies_from_text (lines 6-19)

The file imports TECH_PATTERNS from a "patterns" module that is not in
the repository snapshot, so the registry is a parameter here.  The
js_globals dict is keyed by technology name in this file
(js_globals.get(tech)). -/

/-- The matches list detectors.py builds for one technology: the
pattern source of every matching pattern, then the marker string
"JS global detected" when the technology's js_globals entry is truthy
(detectors.py lines 11-16). -/
def detectMatches (combined : String) (g : String → Bool)
    (e : String × List MatchRule) : List String :=
  let base := (e.2.filter (fun p => ruleSearch p combined)).map rulePatternStr
  if g e.1 then base ++ ["JS global detected"] else base

/-- One iteration of the detectors.py loop: record the technology with
its deduplicated matches when any exist (detectors.py lines 17-18). -/
def detectFromTextStep (combined : String) (g : String → Bool)
    (e : String × List MatchRule) (acc : List (String × List String)) :
    List (String × List String) :=
  if (detectMatches combined g e).isEmpty then acc
  else (e.1, pyDedup (detectMatches combined g e)) :: acc

/-- detectors.py detect_technologies_from_text.  Returns the results
dict as an insertion-ordered association list from technology name to
list(set(matches)). -/
def detect_technologies_from_text (reg : List (String × List MatchRule))
    (html : String) (g : String → Bool) (network_snippets : List String) :
    List (String × List String) :=
  reg.foldr (detectFromTextStep (html ++ String.intercalate " " network_snippets) g) []

/-! ## main.py detect_technologies (lines 75-118)

The HTML loop appends each technology at most once (any(...)), and the
runtime-global loop appends key.replace("has", "") when the probe is
true and the name is not already present. -/

/-- main.py TECH_PATTERNS (lines 30-64): only six entries. -/
def TECH_PATTERNS_main : List (String × List MatchRule) :=
  [("Stripe", [.lit "js.stripe.com", .lit "data-stripe", .lit "Stripe("]),
   ("PayPal", [.lit "paypalobjects.com", .lit "paypal.Buttons"]),
   ("Shopify", [.lit "shopify.com", .lit "data-shopify", .lit "Shopify."]),
   ("WooCommerce",
    [.lit "woocommerce", .lit "wp-content/plugins/woocommerce", .lit "wc-ajax"]),
   ("Cloudflare", [.lit "cloudflare.com", .lit "cf-ray", .lit "__cf_chl"]),
   ("reCaptcha", [.lit "g-recaptcha", .lit "recaptcha/api.js"])]

/-- The keys of the js_globals object built by main.py lines 85-110, in
source order. -/
def mainJsGlobalKeys : List String :=
  ["hasStripe", "hasPayPal", "hasRazorpay", "hasBraintree", "hasAdyen",
   "hasAuthorizeNet", "hasSquare", "hasKlarna", "hasCheckoutCom", "hasPaytm",
   "hasShopifyPayments", "hasWorldpay", "has2Checkout", "hasAmazonPay",
   "hasApplePay", "hasGooglePay", "hasMollie", "hasOpayo", "hasPaddle",
   "hasShopify"]

/-- Python key.replace("has", "") for the probe keys: delete every
occurrence of "has", scanning left to right. -/
def stripHasAll : List Char → List Char
  | 'h' :: 'a' :: 's' :: rest => stripHasAll rest
  | c :: rest => c :: stripHasAll rest
  | [] => []

/-- key.replace("has", "") as a String. -/
def replaceHasEmpty (k : String) : String := ⟨stripHasAll k.data⟩

/-- main.py detect_technologies: the detected_tech list. -/
def mainDetectTechnologies (html : String) (g : String → Bool) : List String :=
  let fromHtml :=
    TECH_PATTERNS_main.foldl
      (fun acc e => if e.2.any (fun p => ruleSearch p html) then acc ++ [e.1] else acc)
      []
  mainJsGlobalKeys.foldl
    (fun acc k =>
      if g k then
        let n := replaceHasEmpty k
        if n ∈ acc then acc else acc ++ [n]
      else acc)
    fromHtml

/-- The technology names registered in main.py TECH_PATTERNS. -/
def mainRegistryNames : List String := TECH_PATTERNS_main.map Prod.fst

/-! ## URL normalization and validation (app.py gatecheck lines 732-750,
identical logic in main.py lines 242-254)

urlparse is modelled to the extent gatecheck consults it: the scheme
(first-colon prefix of valid scheme characters, lowercased) and the
netloc (the segment after "//" up to the next "/", "?" or "#"). -/

/-- Characters allowed in a URL scheme after the leading letter. -/
def schemeChar (c : Char) : Bool := c.isAlphanum || c == '+' || c == '-' || c == '.'

/-- Scan to the first colon, returning the candidate scheme prefix and
the remainder after the colon. -/
def splitSchemeAux : List Char → List Char → Option (List Char × List Char)
  | _, [] => none
  | acc, c :: rest =>
    if c = ':' then some (acc.reverse, rest) else splitSchemeAux (c :: acc) rest

/-- urlparse scheme/rest split: a scheme exists when the first-colon
prefix is nonempty, starts with a letter and consists of scheme
characters; it is lowercased.  Otherwise the scheme is empty and the
whole input remains. -/
def pySplitScheme (u : List Char) : List Char × List Char :=
  match splitSchemeAux [] u with
  | some (cand, rest) =>
    if (match cand with | c :: _ => c.isAlpha | [] => false) && cand.all schemeChar
    then (lowerChars cand, rest) else ([], u)
  | none => ([], u)

/-- urlparse netloc: present only when the post-scheme remainder starts
with "//"; it extends to the next "/", "?" or "#". -/
def pyNetlocOf (rest : List Char) : List Char :=
  match rest with
  | '/' :: '/' :: t => t.takeWhile (fun c => !(c == '/' || c == '?' || c == '#'))
  | _ => []

/-- urlparse(u).scheme. -/
def pyScheme (u : String) : String := ⟨(pySplitScheme u.data).1⟩

/-- urlparse(u).netloc. -/
def pyNetloc (u : String) : String := ⟨pyNetlocOf (pySplitScheme u.data).2⟩

/-- url.startswith(("http://", "https://")) of app.py line 739, as a
character-level prefix test. -/
def startsWithHttp (url : String) : Bool :=
  headMatch "http://".data url.data || headMatch "https://".data url.data

/-- gatecheck's normalization: prepend "https://" unless the input
already starts with "http://" or "https://" (app.py lines 739-740). -/
def normalize_url (url : String) : String :=
  if startsWithHttp url then url else "https://" ++ url

/-- What the gatecheck endpoint decides before any browser work: either
an HTTPException (status, detail) or proceeding to scan the normalized
URL.  Browser work happens only in the scan branch (app.py line 748 runs
after the validation raise of line 746). -/
inductive GateOutcome where
  | reject (status : Nat) (detail : String)
  | scan (normalizedUrl : String)
deriving DecidableEq, Repr

/-- app.py gatecheck lines 739-748 (and, identically, main.py lines
246-250): reject with 400 "Invalid URL provided" when the parsed
normalized URL lacks a scheme or a netloc, else scan it. -/
def gatecheckRoute (url : String) : GateOutcome :=
  if pyScheme (normalize_url url) = "" ∨ pyNetloc (normalize_url url) = "" then
    .reject 400 "Invalid URL provided"
  else .scan (normalize_url url)

/-! ## app.py retry loop and fanout (lines 445-449, 644-648, 712-720)

The browser work inside the try block of detect_technologies is
abstracted by an oracle giving each attempt's outcome: either an
exception message or the page evidence (all_content and js_globals),
from which the scan core above computes the technologies.  The loop is
for attempt in range(max_retries): on success return the result dict;
on exception return an error dict if this was the last attempt,
otherwise await asyncio.sleep(2) and continue.  Nothing is ever
re-raised. -/

/-- The result dict of app.py detect_technologies. -/
structure AppDetResult where
  url : String
  technologies : List String
  error : Option String
deriving DecidableEq, Repr

/-- The retry loop of detect_technologies.  Arguments: the url, the
attempt oracle, remaining attempts, current attempt index.  Returns
(attempts made, sleep durations in seconds, returned value); the value
is none only when max_retries is 0, where the Python function falls off
the loop and implicitly returns None. -/
def detectAttempts (url : String)
    (oracle : Nat → Except String (String × (String → Bool))) :
    Nat → Nat → Nat × List Nat × Option AppDetResult
  | 0, _ => (0, [], none)
  | n + 1, i =>
    match oracle i with
    | .ok (content, g) => (1, [], some ⟨url, appTechnologies content g, none⟩)
    | .error e =>
      if n = 0 then (1, [], some ⟨url, [], some e⟩)
      else
        let (a, ds, r) := detectAttempts url oracle n (i + 1)
        (a + 1, 2 :: ds, r)

/-- detect_technologies with its default max_retries = 2: just the
returned value. -/
def detectResult (url : String)
    (oracle : Nat → Except String (String × (String → Bool))) :
    Option AppDetResult :=
  (detectAttempts url oracle 2 0).2.2

/-- app.py line 713: all_urls = [url] + checkout_urls[:2]. -/
def all_urls_model (url : String) (checkoutUrls : List String) : List String :=
  url :: checkoutUrls.take 2

/-- The concurrency schedule of detect_technologies_with_checkout as a
list of sequential phases, each phase one batch of concurrently launched
visits: lines 717-720 issue a single asyncio.gather over all_urls, so
there is exactly one batch and it contains the root together with the
checkout links. -/
def scan_batches (url : String) (checkoutUrls : List String) : List (List String) :=
  [all_urls_model url checkoutUrls]

/-- Aggregation of detect_technologies_with_checkout (lines 716-730):
gather the per-url results, return the first with a nonempty
technologies list, else the root result, else the fallback response.
checkoutUrls is the list as it stands after the discovery phase;
oracle u gives the attempt outcomes for url u. -/
def gatherResults (url : String) (checkoutUrls : List String)
    (oracle : String → Nat → Except String (String × (String → Bool))) :
    List (Option AppDetResult) :=
  (all_urls_model url checkoutUrls).map (fun u => detectResult u (oracle u))

/-- The aggregation predicate of app.py line 724: isinstance(result,
dict) and result["technologies"]. -/
def hasTech (r : Option AppDetResult) : Bool :=
  match r with
  | some res => decide (res.technologies ≠ [])
  | none => false

/-- The gather-and-aggregate tail of detect_technologies_with_checkout
(app.py lines 712-730), applied once the checkout-URL list is
settled. -/
def aggregateDetections (url : String) (checkoutUrls : List String)
    (oracle : String → Nat → Except String (String × (String → Bool))) :
    AppDetResult :=
  match (gatherResults url checkoutUrls oracle).find? hasTech,
        gatherResults url checkoutUrls oracle with
  | some (some r), _ => r
  | _, some r :: _ => r
  | _, _ => ⟨url, [], some "No technologies detected"⟩

/-- The checkout-URL discovery of detect_technologies_with_checkout
(app.py lines 655-710).  cks is what the never-raising, requests-based
find_checkout_urls produced after the startswith filter of line 656.
When it is empty, the browser-based link-analysis fallback runs: its
acquisition calls (connect_over_cdp, new_context, stealth_async,
new_page, evaluate; lines 663-691) sit outside the try that only starts
at line 693, so a transport failure there raises uncaught —
fallback = .error msg.  Once a browser is acquired, the link analysis
inside the try yields the extracted links, a caught failure leaving the
list empty — fallback = .ok links. -/
def resolveCheckoutUrls (cks : List String)
    (fallback : Except String (List String)) : Except String (List String) :=
  if cks.isEmpty then fallback else .ok cks

/-- detect_technologies_with_checkout (app.py lines 650-730): discovery
with its fallback, then gather and aggregation.  .error msg means the
fallback's browser acquisition raised and the exception escapes the
function uncaught. -/
def detect_with_checkout (url : String) (cks : List String)
    (fallback : Except String (List String))
    (oracle : String → Nat → Except String (String × (String → Bool))) :
    Except String AppDetResult :=
  match resolveCheckoutUrls cks fallback with
  | .error m => .error m
  | .ok curls => .ok (aggregateDetections url curls oracle)

/-- What the HTTP boundary returns for a gatecheck request.  uncaught500
is FastAPI's handling of an exception that escapes the route handler: a
generic HTTP 500 Internal Server Error whose detail names no transports;
the constructor records the escaped exception's text. -/
inductive HttpReply where
  | json (status : Nat) (body : AppDetResult)
  | httpError (status : Nat) (detail : String)
  | uncaught500 (msg : String)
deriving DecidableEq, Repr

/-- The full app.py gatecheck endpoint: validation, then the scan.  A
normal scan yields a 200 JSON response (exceptions inside
detect_technologies are absorbed by its own retry loop); an exception
escaping the link-analysis fallback becomes FastAPI's generic 500. -/
def appGatecheck (url : String) (cks : List String)
    (fallback : Except String (List String))
    (oracle : String → Nat → Except String (String × (String → Bool))) :
    HttpReply :=
  match gatecheckRoute url with
  | .reject s d => .httpError s d
  | .scan u =>
    match detect_with_checkout u cks fallback oracle with
    | .ok body => .json 200 body
    | .error m => .uncaught500 m

/-! ## Helper lemmas about the URL model -/

/-- The host segment of an input URL: what becomes the netloc once
"https://" is prepended (everything up to the first "/", "?" or "#"). -/
def hostPart (s : String) : String :=
  ⟨s.data.takeWhile (fun c => !(c == '/' || c == '?' || c == '#'))⟩

theorem pyScheme_prepended (s : String) : pyScheme ("https://" ++ s) = "https" := rfl

theorem pyNetloc_prepended (s : String) : pyNetloc ("https://" ++ s) = hostPart s := rfl

/-! ## Claim C4 and C10: gatecheck URL validation -/

/-- Claim C4: for every malformed input URL — one whose parsed form
lacks a scheme or a network location after normalization — the gatecheck
endpoint rejects it with HTTP 400 before any browser work (the reject
outcome carries no scan; app.py raises at line 746, before the scan call
of line 748), and the rejection carries the human-readable detail
"Invalid URL provided". -/
theorem c4_malformed_url_rejected (url : String)
    (h : pyScheme (normalize_url url) = "" ∨ pyNetloc (normalize_url url) = "") :
    gatecheckRoute url = .reject 400 "Invalid URL provided" := by
  unfold gatecheckRoute
  rw [if_pos h]

theorem c4_malformed_url_rejected_witness :
    gatecheckRoute "http://" = .reject 400 "Invalid URL provided" :=
  c4_malformed_url_rejected "http://" (Or.inr (by decide))

/-- Claim C10: for every input url that does not start with "http://"
or "https://", gatecheck prepends "https://" before validation; any
input with a non-empty host part is accepted and scanned rather than
rejected, and the 400 rejection occurs exactly when the normalized URL
still lacks a scheme or a network location (which, after prepending,
reduces to an empty netloc, the scheme being "https"). -/
theorem c10_prepend_https (url : String) (h : startsWithHttp url = false) :
    normalize_url url = "https://" ++ url
    ∧ (hostPart url ≠ "" → gatecheckRoute url = .scan ("https://" ++ url))
    ∧ (gatecheckRoute url = .reject 400 "Invalid URL provided"
        ↔ (pyScheme (normalize_url url) = "" ∨ pyNetloc (normalize_url url) = "")) := by
  have hn : normalize_url url = "https://" ++ url := by
    unfold normalize_url
    rw [h]
    rfl
  refine ⟨hn, ?_, ?_⟩
  · intro hhost
    unfold gatecheckRoute
    rw [hn, pyScheme_prepended, pyNetloc_prepended, if_neg]
    rintro (hs | hnl)
    · exact absurd hs (by decide)
    · exact hhost hnl
  · constructor
    · intro hr
      by_contra hc
      push_neg at hc
      unfold gatecheckRoute at hr
      rw [if_neg (by rintro (hs | hnl); exacts [hc.1 hs, hc.2 hnl])] at hr
      exact GateOutcome.noConfusion hr
    · exact c4_malformed_url_rejected url

theorem c10_prepend_https_witness :
    normalize_url "example.com" = "https://" ++ "example.com"
    ∧ gatecheckRoute "example.com" = .scan ("https://" ++ "example.com") :=
  ⟨(c10_prepend_https "example.com" (by decide)).1,
   (c10_prepend_https "example.com" (by decide)).2.1 (by decide)⟩

/-! ## Claim C5: fanout cap -/

/-- Claim C5 counterexample: with three extracted checkout links, the
links followed beyond the root are only the first two — the slice
checkout_urls[:2] of app.py line 713 — not all three as a fanout limit
of 5 would allow.  The hard-coded cap is 2, refuting the claimed default
of 5. -/
theorem c5_fanout_counterexample :
    ((all_urls_model "https://e.com"
        ["https://e.com/a", "https://e.com/b", "https://e.com/c"]).drop 1
      = ["https://e.com/a", "https://e.com/b"])
    ∧ (all_urls_model "https://e.com"
        ["https://e.com/a", "https://e.com/b", "https://e.com/c"]).drop 1
      ≠ (["https://e.com/a", "https://e.com/b", "https://e.com/c"] : List String).take 5 :=
  ⟨rfl, by decide⟩

/-- Claim C5 as amended: the links followed beyond the root are the
first two extracted checkout URLs, in extraction order (an initial
segment of the extraction list), and their number is capped at 2, the
hard-coded slice bound of app.py line 713. -/
theorem c5_fanout_amended (u : String) (l : List String) :
    (all_urls_model u l).drop 1 = l.take 2
    ∧ l.take 2 ++ l.drop 2 = l
    ∧ ((all_urls_model u l).drop 1).length ≤ 2 := by
  refine ⟨rfl, List.take_append_drop 2 l, ?_⟩
  rw [List.drop_one, all_urls_model]
  simp

/-! ## Claim C9: the root visit is not ordered before depth-1 visits -/

/-- Claim C9 counterexample: detect_technologies_with_checkout issues a
single asyncio.gather over [url] + checkout_urls[:2] (app.py lines
713-720), so the one concurrent batch contains the root together with a
depth-1 checkout link; the root's visit is not a batch of its own that
completes before depth-1 fanout begins. -/
theorem c9_single_batch_counterexample :
    (scan_batches "https://e.com" ["https://e.com/checkout"]).head?
      = some ["https://e.com", "https://e.com/checkout"]
    ∧ (["https://e.com", "https://e.com/checkout"] : List String) ≠ ["https://e.com"] :=
  ⟨rfl, by decide⟩

/-- Claim C9 as amended: the schedule has exactly one batch, launched
concurrently, containing the root URL followed by up to two checkout
links; there is no earlier root-only phase. -/
theorem c9_single_batch_amended (u : String) (l : List String) :
    scan_batches u l = [u :: l.take 2] ∧ (scan_batches u l).length = 1 :=
  ⟨rfl, rfl⟩

/-! ## Claim C8: retry backoff -/

/-- Trace invariant of the retry loop: at most max_retries attempts are
made, and every sleep between attempts lasts the constant 2 seconds
(await asyncio.sleep(2), app.py line 648). -/
theorem detectAttempts_trace (url : String)
    (oracle : Nat → Except String (String × (String → Bool))) :
    ∀ n i, (detectAttempts url oracle n i).1 ≤ n
      ∧ ∀ d ∈ (detectAttempts url oracle n i).2.1, d = 2 := by
  intro n
  induction n with
  | zero => intro i; exact ⟨Nat.le_refl 0, by simp [detectAttempts]⟩
  | succ m ih =>
    intro i
    cases h : oracle i with
    | ok v =>
      obtain ⟨content, g⟩ := v
      simp only [detectAttempts, h]
      exact ⟨Nat.succ_le_succ (Nat.zero_le m), by simp⟩
    | error e =>
      by_cases hm : m = 0
      · subst hm
        simp [detectAttempts, h]
      · simp only [detectAttempts, h, if_neg hm]
        obtain ⟨ha, hd⟩ := ih (i + 1)
        refine ⟨Nat.succ_le_succ ha, ?_⟩
        intro d hdm
        rcases List.mem_cons.mp hdm with rfl | hdm
        · rfl
        · exact hd d hdm

/-- Claim C8 counterexample: running the acquisition retry loop with a
transport that always fails and three attempts sleeps [2, 2] between
attempts — a constant delay, not an exponentially growing one (the
consecutive delays 2, 2 do not increase). -/
theorem c8_backoff_counterexample :
    (detectAttempts "https://example.com" (fun _ => .error "transport failure") 3 0).2.1
      = [2, 2]
    ∧ ¬ ((2 : Nat) < 2) :=
  ⟨rfl, by decide⟩

/-- Claim C8 as amended: each acquisition attempt is retried with a
constant 2-second delay up to the fixed attempt count max_retries
(default 2); every recorded delay equals 2 and no more than max_retries
attempts are made before the loop gives up and returns an error
result. -/
theorem c8_backoff_amended (url : String)
    (oracle : Nat → Except String (String × (String → Bool)))
    (n i d : Nat) (hd : d ∈ (detectAttempts url oracle n i).2.1) :
    d = 2 ∧ (detectAttempts url oracle n i).1 ≤ n :=
  ⟨(detectAttempts_trace url oracle n i).2 d hd, (detectAttempts_trace url oracle n i).1⟩

theorem c8_backoff_amended_witness :
    (2 : Nat) = 2
    ∧ (detectAttempts "https://example.com" (fun _ => .error "transport failure") 2 0).1 ≤ 2 :=
  c8_backoff_amended "https://example.com" (fun _ => .error "transport failure") 2 0 2
    (by decide)

/-! ## Claim C3: what happens when every transport attempt fails -/

/-- When every attempt raises, the gather-and-aggregate tail still
returns normally: each per-url retry loop swallows its exceptions and
returns an error dict, no result has technologies, and the aggregation
falls back to the root result. -/
theorem aggregateDetections_all_fail (u : String) (cks : List String) (msg : String) :
    aggregateDetections u cks (fun _ _ => .error msg)
      = ⟨u, [], some msg⟩ := by
  rcases cks with _ | ⟨a, _ | ⟨b, rest⟩⟩ <;> rfl

/-- Claim C3 counterexample: with a checkout link discovered via the
sitemap (so the browser-based fallback of app.py lines 661-710 is
skipped) and every browser-acquisition attempt failing, the gatecheck
request completes with HTTP 200 and a body whose error field carries
the exception text — the scan raises no AllTransportsExhausted (no such
error exists anywhere in the code), and no HTTP 500 with a
transport-naming detail is produced; the retry loop of app.py lines
644-648 returns the error as data. -/
theorem c3_exhaustion_counterexample :
    appGatecheck "https://example.com" ["https://example.com/checkout"]
        (.error "browser transport unavailable")
        (fun _ _ => .error "browser transport unavailable")
      = .json 200 ⟨"https://example.com", [], some "browser transport unavailable"⟩ := by
  rfl

/-- Claim C3 as amended: no AllTransportsExhausted exists and no 500
names the exhausted transports.  For every valid input URL, with every
browser acquisition failing (so the link-analysis fallback, which needs
a browser, raises with some message fmsg): if checkout-URL discovery
found links, the retry loops absorb every failure and the endpoint
answers HTTP 200 with empty technologies and the exception message in
the error field; if discovery found none, the fallback's acquisition
(outside the try of app.py line 693) raises uncaught and FastAPI
answers its generic 500, which names no transports.  Only the
invalid-URL check produces an intentional HTTP failure (400). -/
theorem c3_exhaustion_amended (url nurl : String) (cks : List String) (msg fmsg : String)
    (h : gatecheckRoute url = .scan nurl) :
    (cks ≠ [] →
      appGatecheck url cks (.error fmsg) (fun _ _ => .error msg)
        = .json 200 ⟨nurl, [], some msg⟩)
    ∧ (cks = [] →
      appGatecheck url cks (.error fmsg) (fun _ _ => .error msg)
        = .uncaught500 fmsg) := by
  constructor
  · intro hne
    unfold appGatecheck
    rw [h]
    have hres : resolveCheckoutUrls cks (.error fmsg) = .ok cks := by
      unfold resolveCheckoutUrls
      rw [if_neg]
      simp [hne]
    unfold detect_with_checkout
    rw [hres]
    exact congrArg (HttpReply.json 200) (aggregateDetections_all_fail nurl cks msg)
  · intro hnil
    subst hnil
    unfold appGatecheck
    rw [h]
    rfl

theorem c3_exhaustion_amended_witness :
    appGatecheck "https://example.com" ["https://example.com/checkout"]
        (.error "connect failed") (fun _ _ => .error "connect failed")
      = .json 200 ⟨"https://example.com", [], some "connect failed"⟩
    ∧ appGatecheck "https://example.com" [] (.error "connect failed")
        (fun _ _ => .error "connect failed")
      = .uncaught500 "connect failed" :=
  ⟨(c3_exhaustion_amended "https://example.com" "https://example.com"
      ["https://example.com/checkout"] "connect failed" "connect failed" rfl).1
      (by decide),
   (c3_exhaustion_amended "https://example.com" "https://example.com"
      [] "connect failed" "connect failed" rfl).2 rfl⟩

/-! ## Claim C6: deduplicated technologies -/

/-- Every result the retry loop returns has a duplicate-free
technologies list: the success path ends in list(set(...)) (app.py line
637) and the failure path returns an empty list. -/
theorem detectAttempts_nodup (url : String)
    (oracle : Nat → Except String (String × (String → Bool))) :
    ∀ n i r, (detectAttempts url oracle n i).2.2 = some r → r.technologies.Nodup := by
  intro n
  induction n with
  | zero => intro i r hr; simp [detectAttempts] at hr
  | succ m ih =>
    intro i r hr
    cases h : oracle i with
    | ok v =>
      obtain ⟨content, g⟩ := v
      simp only [detectAttempts, h, Option.some.injEq] at hr
      rw [← hr]
      exact pyDedup_nodup _
    | error e =>
      by_cases hm : m = 0
      · subst hm
        have hstep : detectAttempts url oracle 1 i
            = (1, [], some ⟨url, [], some e⟩) := by
          simp [detectAttempts, h]
        rw [hstep] at hr
        cases Option.some.inj hr
        exact List.nodup_nil
      · simp only [detectAttempts, h, if_neg hm] at hr
        exact ih (i + 1) r hr

theorem detectResult_nodup (u : String)
    (orc : Nat → Except String (String × (String → Bool)))
    (r : AppDetResult) (h : detectResult u orc = some r) :
    r.technologies.Nodup :=
  detectAttempts_nodup u orc 2 0 r h

theorem aggregateDetections_nodup (u : String) (cks : List String)
    (orc : String → Nat → Except String (String × (String → Bool))) :
    (aggregateDetections u cks orc).technologies.Nodup := by
  unfold aggregateDetections
  split
  · rename_i r heq
    have hmem : some r ∈ gatherResults u cks orc := List.mem_of_find?_eq_some heq
    obtain ⟨x, -, hx⟩ := List.mem_map.mp hmem
    exact detectResult_nodup x (orc x) r hx
  · rename_i r tl hfirst hcons
    have hG : gatherResults u cks orc
        = detectResult u (orc u) :: (cks.take 2).map (fun v => detectResult v (orc v)) := rfl
    rw [hG] at hfirst
    injection hfirst with h1 h2
    exact detectResult_nodup u (orc u) r h1
  · exact List.nodup_nil

/-- Claim C6: for every completed scan — every 200 JSON reply the
gatecheck endpoint produces — the technologies field of the returned
report contains no name twice. -/
theorem c6_technologies_deduplicated (url : String) (cks : List String)
    (fallback : Except String (List String))
    (orc : String → Nat → Except String (String × (String → Bool)))
    (s : Nat) (body : AppDetResult)
    (h : appGatecheck url cks fallback orc = .json s body) :
    body.technologies.Nodup := by
  unfold appGatecheck at h
  cases hg : gatecheckRoute url with
  | reject st d =>
    rw [hg] at h
    exact HttpReply.noConfusion h
  | scan nurl =>
    rw [hg] at h
    unfold detect_with_checkout at h
    cases hr : resolveCheckoutUrls cks fallback with
    | error m =>
      rw [hr] at h
      exact HttpReply.noConfusion h
    | ok curls =>
      rw [hr] at h
      have h' : HttpReply.json 200 (aggregateDetections nurl curls orc)
          = .json s body := h
      injection h' with h1 h2
      rw [← h2]
      exact aggregateDetections_nodup nurl curls orc

theorem c6_technologies_deduplicated_witness :
    (AppDetResult.mk "https://example.com" [] (some "boom")).technologies.Nodup :=
  c6_technologies_deduplicated "https://example.com" [] (.ok [])
    (fun _ _ => .error "boom")
    200 ⟨"https://example.com", [], some "boom"⟩ (by rfl)

/-! ## Claim C2: the matcher is deterministic and pure -/

/-- Claim C2: the matcher is deterministic and side-effect-free.  Both
matching paths — detectors.py detect_technologies_from_text and the
app.py scan core — are embedded as pure functions of the registry and
the evidence (which is faithful: the Python bodies only read
TECH_PATTERNS and build fresh locals, never assigning into the registry
or the inputs), so two calls on identical inputs return identical match
results; in particular the results agree as sets. -/
theorem c2_matcher_deterministic (reg : List (String × List MatchRule))
    (html₁ html₂ : String) (g₁ g₂ : String → Bool) (ns₁ ns₂ : List String)
    (hh : html₁ = html₂) (hg : g₁ = g₂) (hn : ns₁ = ns₂) :
    detect_technologies_from_text reg html₁ g₁ ns₁
        = detect_technologies_from_text reg html₂ g₂ ns₂
    ∧ techMatches html₁ g₁ = techMatches html₂ g₂ := by
  subst hh; subst hg; subst hn
  exact ⟨rfl, rfl⟩

theorem c2_matcher_deterministic_witness :
    detect_technologies_from_text TECH_PATTERNS_app "js.stripe.com" (fun _ => false) []
        = detect_technologies_from_text TECH_PATTERNS_app "js.stripe.com" (fun _ => false) []
    ∧ techMatches "js.stripe.com" (fun _ => false)
        = techMatches "js.stripe.com" (fun _ => false) :=
  c2_matcher_deterministic TECH_PATTERNS_app "js.stripe.com" "js.stripe.com"
    (fun _ => false) (fun _ => false) [] [] rfl rfl rfl

/-! ## Claim C1: a pure js.stripe.com page detects exactly Stripe -/

/-- An entry with no matching rule and all-false globals contributes no
match. -/
theorem entryMatches_eq_nil (content : String) (g : String → Bool)
    (e : String × List MatchRule)
    (hf : ∀ r ∈ e.2, ruleSearch r content = false)
    (hg : ∀ k, g k = false) :
    entryMatches content g e = [] := by
  unfold entryMatches
  rw [List.filter_eq_nil_iff.mpr (by intro r hr; simp [hf r hr]), List.map_nil,
    List.nil_append]
  cases hk : globalKeyFor e.1 with
  | none => rfl
  | some k => simp [hg k]

/-- Claim C1: for every scan whose combined page content matches
Stripe's js.stripe.com pattern and nothing else (no other pattern of any
technology matches and every runtime-global probe is false), the
detection result's technologies list is exactly ["Stripe"], and the
single match record has evidence kind html (it came from the text scan,
not a runtime-global). -/
theorem c1_stripe_only (content : String) (g : String → Bool)
    (hstripe : ruleSearch stripeHtmlRule content = true)
    (hothers : ∀ e ∈ TECH_PATTERNS_app, ∀ r ∈ e.2,
        r ≠ stripeHtmlRule → ruleSearch r content = false)
    (hglobals : ∀ k, g k = false) :
    appTechnologies content g = ["Stripe"]
    ∧ techMatches content g = [⟨"Stripe", .html, some stripeHtmlRule⟩] := by
  have hne_tail : ∀ r ∈ stripeTailRules, r ≠ stripeHtmlRule := by decide
  have hne_other : ∀ e ∈ otherEntries, ∀ r ∈ e.2, r ≠ stripeHtmlRule := by decide
  have hmem_stripe : ("Stripe", stripeRules) ∈ TECH_PATTERNS_app :=
    List.mem_cons_self _ _
  have htail_false : ∀ r ∈ stripeTailRules, ruleSearch r content = false := fun r hr =>
    hothers _ hmem_stripe r (List.mem_cons_of_mem _ hr) (hne_tail r hr)
  have hstripe_entry : entryMatches content g ("Stripe", stripeRules)
      = [⟨"Stripe", .html, some stripeHtmlRule⟩] := by
    unfold entryMatches
    rw [show stripeRules = stripeHtmlRule :: stripeTailRules from rfl,
        List.filter_cons_of_pos (by simpa using hstripe),
        List.filter_eq_nil_iff.mpr (by intro r hr; simp [htail_false r hr])]
    have hgk : globalKeyFor ("Stripe", stripeRules).1 = some "hasStripe" := rfl
    rw [hgk]
    simp [hglobals "hasStripe"]
  have hrest : otherEntries.flatMap (entryMatches content g) = [] := by
    rw [List.flatMap_eq_nil_iff]
    intro e he
    exact entryMatches_eq_nil content g e
      (fun r hr => hothers e (List.mem_cons_of_mem _ he) r hr (hne_other e he r hr))
      hglobals
  have hmatches : techMatches content g = [⟨"Stripe", .html, some stripeHtmlRule⟩] := by
    unfold techMatches TECH_PATTERNS_app
    rw [List.flatMap_cons, hstripe_entry, hrest]
    rfl
  refine ⟨?_, hmatches⟩
  unfold appTechnologies
  rw [hmatches]
  rfl

theorem c1_stripe_only_witness :
    appTechnologies "js.stripe.com" (fun _ => false) = ["Stripe"]
    ∧ techMatches "js.stripe.com" (fun _ => false)
        = [⟨"Stripe", .html, some stripeHtmlRule⟩] :=
  c1_stripe_only "js.stripe.com" (fun _ => false) (by decide) (by decide)
    (fun _ => rfl)

/-! ## Claim C7: do reported technologies reference registry names? -/

/-- Claim C7 counterexample: main.py's runtime-global path (lines
112-118) appends key.replace("has", "") when a probe is true, so a page
with the Razorpay global set and no HTML signal yields the technology
"Razorpay" — a name that is not a key of main.py's six-entry
TECH_PATTERNS table.  The invariant that every reported technology
references a Signature Registry name fails on this detection path. -/
theorem c7_registry_name_counterexample :
    mainDetectTechnologies "" (fun k => k == "hasRazorpay") = ["Razorpay"]
    ∧ "Razorpay" ∉ mainRegistryNames := by
  exact ⟨by decide, by decide⟩

/-- A match record contributed by an entry always carries that entry's
name. -/
theorem entryMatches_tech (content : String) (g : String → Bool)
    (e : String × List MatchRule) (rec : MatchRec)
    (h : rec ∈ entryMatches content g e) : rec.tech = e.1 := by
  unfold entryMatches at h
  rcases List.mem_append.mp h with h | h
  · obtain ⟨r, -, rfl⟩ := List.mem_map.mp h
    rfl
  · revert h
    cases globalKeyFor e.1 with
    | none => intro h; exact absurd h (List.not_mem_nil rec)
    | some k =>
      intro h
      have h' : rec ∈ (if g k
          then [(⟨e.1, .runtimeGlobal, none⟩ : MatchRec)] else []) := h
      by_cases hk : g k = true
      · rw [if_pos hk] at h'
        rcases List.mem_singleton.mp h' with rfl
        rfl
      · rw [if_neg hk] at h'
        exact absurd h' (List.not_mem_nil rec)

/-- An entry recorded by one detectors.py loop step is either this
technology or was already in the accumulator. -/
theorem mem_detectFromTextStep (c : String) (g : String → Bool)
    (e : String × List MatchRule) (acc : List (String × List String))
    (t : String) (ms : List String)
    (h : (t, ms) ∈ detectFromTextStep c g e acc) :
    t = e.1 ∨ (t, ms) ∈ acc := by
  unfold detectFromTextStep at h
  split at h
  · exact Or.inr h
  · rcases List.mem_cons.mp h with heq | hmem
    · exact Or.inl (congrArg Prod.fst heq)
    · exact Or.inr hmem

/-- Claim C7 as amended: the invariant does hold for the app.py scan
core (both the pattern scan and its runtime-global elif chain only ever
append the registry entry's own name) and for detectors.py (whose
results dict is keyed by registry entries); only main.py's
replace("has", "") path violates it. -/
theorem c7_registry_name_amended :
    (∀ content g t, t ∈ (techMatches content g).map MatchRec.tech →
        t ∈ TECH_PATTERNS_app.map Prod.fst)
    ∧ (∀ reg html g ns t ms,
        (t, ms) ∈ detect_technologies_from_text reg html (g : String → Bool) ns →
        t ∈ reg.map Prod.fst) := by
  constructor
  · intro content g t ht
    obtain ⟨rec, hrec, rfl⟩ := List.mem_map.mp ht
    obtain ⟨e, he, hmem⟩ := List.mem_flatMap.mp hrec
    rw [entryMatches_tech content g e rec hmem]
    exact List.mem_map_of_mem _ he
  · intro reg html g ns t ms h
    induction reg with
    | nil => exact absurd h (List.not_mem_nil _)
    | cons e rest ih =>
      have hstep : detect_technologies_from_text (e :: rest) html g ns
          = detectFromTextStep (html ++ String.intercalate " " ns) g e
              (detect_technologies_from_text rest html g ns) := rfl
      rw [hstep] at h
      rcases mem_detectFromTextStep _ _ _ _ _ _ h with heq | hmem
      · rw [heq]
        exact List.mem_cons_self _ _
      · exact List.mem_cons_of_mem _ (ih hmem)

theorem c7_registry_name_amended_witness :
    "Stripe" ∈ TECH_PATTERNS_app.map Prod.fst
    ∧ "Stripe" ∈ TECH_PATTERNS_main.map Prod.fst :=
  ⟨c7_registry_name_amended.1 "js.stripe.com" (fun _ => false) "Stripe" (by decide),
   c7_registry_name_amended.2 TECH_PATTERNS_main "js.stripe.com" (fun _ => false) []
     "Stripe" ["js.stripe.com"] (by decide)⟩
